import Mathlib

/-!
Verification of the resilient multi-stage enrichment engine of the
`agents-ia` lead-generation pipeline.

The Lean definitions below are a shallow embedding of the Python sources:

* `src/execution/api_utils.py` — the `APITracker` usage tracker
  (`APITracker.record`, `generate_report`), snapshot merging
  (`load_and_merge_tracker_snapshots`) and the retrying call executor
  (`call_with_retry`, `_parse_retry_after`).
* `src/execution/enrich.py` — the waterfall enrichment strategy
  (`enrich_lead`, `step5_reconstruct_email`).
* `src/execution/run_pipeline.py` — the checkpointed orchestrator
  (`_load_state`, `_save_checkpoint`, `_is_step_done`, `main`).

Python integers become `Int`/`Nat`, Python floats used for delays become `ℚ`
(the operations involved — `min`, `*` — are modelled exactly), `None` becomes
`Option`, dictionaries become insertion-ordered association lists, and
side effects (`time.sleep`, `api_tracker.record`, HTTP calls) become explicit
logs or oracle functions passed as arguments.
-/

namespace AgentsIA

/-- Per-label counter entry of `APITracker.calls`
(`api_utils.py`, `APITracker.record`, lines 155-185).
`first_429_at` / `last_429_at` are ISO timestamp strings, `none` for Python
`None`. -/
@[ext]
structure Entry where
  total : Nat
  success : Nat
  rate_limited : Nat
  server_errors : Nat
  client_errors : Nat
  network_errors : Nat
  first_429_at : Option String
  last_429_at : Option String
  deriving Repr, DecidableEq

/-- The fresh all-zero entry created when a label is first recorded
(`api_utils.py` lines 157-167). -/
def Entry.init : Entry :=
  { total := 0, success := 0, rate_limited := 0, server_errors := 0
    client_errors := 0, network_errors := 0
    first_429_at := none, last_429_at := none }

/-- One `APITracker.record` update of a single label's entry
(`api_utils.py` lines 169-185). `now` is the value of
`datetime.now().isoformat()` at the time of the call, passed explicitly. -/
def recordEntry (e : Entry) (status_code : Int) (now : String) : Entry :=
  let e := { e with total := e.total + 1 }
  if status_code = 200 then
    { e with success := e.success + 1 }
  else if status_code = 429 then
    { e with rate_limited := e.rate_limited + 1
             first_429_at := match e.first_429_at with
               | none => some now
               | some t => some t
             last_429_at := some now }
  else if 500 ≤ status_code ∧ status_code < 600 then
    { e with server_errors := e.server_errors + 1 }
  else if status_code = -1 then
    { e with network_errors := e.network_errors + 1 }
  else if 400 ≤ status_code ∧ status_code < 500 then
    { e with client_errors := e.client_errors + 1 }
  else
    e

/-- `APITracker.calls`: a Python dict label → entry, modelled as an
insertion-ordered association list with (by construction) unique keys. -/
def Calls := List (String × Entry)

/-- Dictionary lookup in `APITracker.calls`. -/
def lookupEntry : List (String × Entry) → String → Option Entry
  | [], _ => none
  | p :: ps, l => if p.1 = l then some p.2 else lookupEntry ps l

/-- `APITracker.record(label, status_code)` on the whole calls dict
(`api_utils.py` lines 155-185): a missing label is first inserted with the
all-zero entry, then the label's entry is updated in place. -/
def record (calls : List (String × Entry)) (label : String) (status_code : Int)
    (now : String) : List (String × Entry) :=
  match lookupEntry calls label with
  | none => calls ++ [(label, recordEntry Entry.init status_code now)]
  | some _ =>
      calls.map fun p => if p.1 = label then (p.1, recordEntry p.2 status_code now) else p

/-- The entry a label currently has, an all-zero entry when the label was
never recorded (what `record` itself would start from). -/
def getEntry (calls : List (String × Entry)) (label : String) : Entry :=
  (lookupEntry calls label).getD Entry.init

/-- A recorded event: a label, an HTTP status code (−1 for a network error)
and the timestamp of the call. -/
structure Event where
  label : String
  status_code : Int
  now : String

/-- Replaying a sequence of `APITracker.record` calls from a starting dict. -/
def recordSeq (calls : List (String × Entry)) (evs : List Event) :
    List (String × Entry) :=
  evs.foldl (fun c ev => record c ev.label ev.status_code ev.now) calls

/-- A status code falls in one of `record`'s five counter buckets. -/
def classified (status_code : Int) : Prop :=
  status_code = 200 ∨ status_code = 429 ∨ (500 ≤ status_code ∧ status_code < 600) ∨
    status_code = -1 ∨ (400 ≤ status_code ∧ status_code < 500)

instance (s : Int) : Decidable (classified s) := by
  unfold classified; infer_instance

/-- The counter-sum invariant of the spec:
`total == success + rate_limited + server_errors + client_errors + network_errors`. -/
def Entry.balanced (e : Entry) : Prop :=
  e.total = e.success + e.rate_limited + e.server_errors + e.client_errors +
    e.network_errors

instance (e : Entry) : Decidable e.balanced := by
  unfold Entry.balanced; infer_instance

lemma recordEntry_balanced {e : Entry} (hb : e.balanced) {s : Int}
    (hs : classified s) (now : String) : (recordEntry e s now).balanced := by
  unfold classified at hs
  unfold Entry.balanced at hb ⊢
  unfold recordEntry
  split_ifs <;> simp_all <;> omega

lemma lookupEntry_append_self (calls : List (String × Entry)) (label : String)
    (e : Entry) (h : lookupEntry calls label = none) :
    lookupEntry (calls ++ [(label, e)]) label = some e := by
  induction calls with
  | nil => simp [lookupEntry]
  | cons p ps ih =>
      by_cases hp : p.1 = label
      · simp [lookupEntry, hp] at h
      · simp only [List.cons_append, lookupEntry, if_neg hp] at h ⊢
        exact ih h

lemma lookupEntry_append_other (calls : List (String × Entry)) (label l : String)
    (e : Entry) (hne : l ≠ label) :
    lookupEntry (calls ++ [(label, e)]) l = lookupEntry calls l := by
  induction calls with
  | nil => simp [lookupEntry, Ne.symm hne]
  | cons p ps ih =>
      by_cases hp : p.1 = l
      · simp [lookupEntry, hp]
      · simp only [List.cons_append, lookupEntry, if_neg hp]
        exact ih

lemma lookupEntry_map_update (calls : List (String × Entry)) (label l : String)
    (f : Entry → Entry) :
    lookupEntry (calls.map fun p => if p.1 = label then (p.1, f p.2) else p) l =
      if l = label then (lookupEntry calls l).map f else lookupEntry calls l := by
  induction calls with
  | nil => simp [lookupEntry]
  | cons p ps ih =>
      by_cases hl : l = label
      · subst hl
        by_cases hp : p.1 = l <;> simp [lookupEntry, hp, ih]
      · by_cases hp : p.1 = label
        · have hll : ¬ label = l := fun h => hl h.symm
          simp [lookupEntry, hp, hll, ih, hl]
        · simp [lookupEntry, hp, ih, hl]

/-- Effect of `record` on every label's current entry: the recorded label's
entry is updated by `recordEntry`, every other label is untouched. -/
lemma getEntry_record (calls : List (String × Entry)) (label l : String)
    (s : Int) (now : String) :
    getEntry (record calls label s now) l =
      if l = label then recordEntry (getEntry calls label) s now
      else getEntry calls l := by
  unfold record
  cases hfind : lookupEntry calls label with
  | none =>
      by_cases hl : l = label
      · subst hl
        simp [getEntry, lookupEntry_append_self calls l _ hfind, hfind]
      · simp [getEntry, lookupEntry_append_other calls label l _ hl, hl]
  | some e =>
      by_cases hl : l = label
      · subst hl
        rw [getEntry, lookupEntry_map_update calls l l (fun x => recordEntry x s now)]
        simp [getEntry, hfind]
      · rw [getEntry, lookupEntry_map_update calls label l (fun x => recordEntry x s now)]
        simp [getEntry, hl]

lemma getEntry_recordSeq_balanced (evs : List Event)
    (hcls : ∀ ev ∈ evs, classified ev.status_code)
    (calls : List (String × Entry))
    (hinv : ∀ l, (getEntry calls l).balanced) :
    ∀ l, (getEntry (recordSeq calls evs) l).balanced := by
  induction evs generalizing calls with
  | nil => simpa [recordSeq] using hinv
  | cons ev evs ih =>
      intro l
      have hstep : ∀ l', (getEntry (record calls ev.label ev.status_code ev.now) l').balanced := by
        intro l'
        rw [getEntry_record]
        split
        · exact recordEntry_balanced (hinv ev.label) (hcls ev (by simp)) ev.now
        · exact hinv l'
      have := ih (fun e he => hcls e (by simp [he])) _ hstep
      simpa [recordSeq] using this l

/-- C1 — the claim as frozen quantifies over arbitrary integer status codes;
it fails on a status `record` does not classify. Recording a single call with
status 201 under label "Serper OSINT" gives `total = 1` but every bucket 0,
so `total ≠ success + rate_limited + server_errors + client_errors +
network_errors`. -/
theorem c1_counterexample :
    ¬ (getEntry (recordSeq [] [⟨"Serper OSINT", 201, "t0"⟩]) "Serper OSINT").balanced := by
  decide

/-- C1 (amended) — for every sequence of `APITracker.record` calls whose
status codes each fall in one of the five classified buckets (200, 429,
5xx, −1, 4xx), every label's counters satisfy
`total = success + rate_limited + server_errors + client_errors +
network_errors`; starting from the empty tracker dict. -/
theorem c1_total_balances (evs : List Event)
    (hcls : ∀ ev ∈ evs, classified ev.status_code) (label : String) :
    (getEntry (recordSeq [] evs) label).balanced := by
  refine getEntry_recordSeq_balanced evs hcls [] (fun l => ?_) label
  simp [getEntry, lookupEntry, Entry.init, Entry.balanced]

/-- C1 witness — a concrete mixed sequence (success, rate-limit, server error,
network error, client error) on two labels; the theorem applies and the
invariant evaluates to true. -/
theorem c1_total_balances_witness :
    (getEntry (recordSeq []
        [⟨"Hunter domain-search", 200, "t0"⟩, ⟨"Hunter domain-search", 429, "t1"⟩,
         ⟨"Apollo people-search", 503, "t2"⟩, ⟨"Hunter domain-search", -1, "t3"⟩,
         ⟨"Apollo people-search", 404, "t4"⟩]) "Hunter domain-search").balanced :=
  c1_total_balances _ (by decide) _

/-! ### Snapshot merging (`load_and_merge_tracker_snapshots`, api_utils.py lines 381-406) -/

/-- Timestamp combination for `first_429_at` while merging
(api_utils.py lines 398-400): keep the merged value unless the incoming
entry has an earlier (string-compared, as Python compares ISO strings)
non-null timestamp. -/
def combineFirst : Option String → Option String → Option String
  | m, none => m
  | none, some t => some t
  | some m, some t => some (if t < m then t else m)

/-- Timestamp combination for `last_429_at` (api_utils.py lines 401-403):
keep the latest non-null timestamp. -/
def combineLast : Option String → Option String → Option String
  | m, none => m
  | none, some t => some t
  | some m, some t => some (if m < t then t else m)

/-- Merging one snapshot entry into an already-merged entry for the same
label (api_utils.py lines 393-403): numeric fields are summed, timestamps
combined by `combineFirst` / `combineLast`. -/
def mergeEntry (m e : Entry) : Entry :=
  { total := m.total + e.total
    success := m.success + e.success
    rate_limited := m.rate_limited + e.rate_limited
    server_errors := m.server_errors + e.server_errors
    client_errors := m.client_errors + e.client_errors
    network_errors := m.network_errors + e.network_errors
    first_429_at := combineFirst m.first_429_at e.first_429_at
    last_429_at := combineLast m.last_429_at e.last_429_at }

/-- One iteration of the merge loop over a `(label, entry)` row
(api_utils.py lines 389-403): a first-seen label's entry is copied, an
already-seen label's entry is merged with `mergeEntry`. The merged tracker
is modelled per label, as a map from label to its merged entry. -/
def mergeStep (acc : String → Option Entry) (p : String × Entry) :
    String → Option Entry :=
  fun l =>
    if l = p.1 then
      some (match acc p.1 with
        | none => p.2
        | some a => mergeEntry a p.2)
    else acc l

/-- `load_and_merge_tracker_snapshots`: fold the rows of all snapshot files
(in file order, each file's dict in insertion order) into one merged
tracker. The file-reading side is abstracted into the flattened row list. -/
def mergeSnapshots (rows : List (String × Entry)) : String → Option Entry :=
  rows.foldl mergeStep (fun _ => none)

/-- The entries a given label contributes, in row order. -/
def entriesFor (rows : List (String × Entry)) (l : String) : List Entry :=
  (rows.filter fun p => p.1 = l).map Prod.snd

/-- Merging a list of entries into an optional accumulator, exactly as the
per-label merge behaves: the first entry seeds, later ones are merged. -/
def applyEntries (o : Option Entry) (es : List Entry) : Option Entry :=
  es.foldl
    (fun o e => some (match o with
      | none => e
      | some a => mergeEntry a e)) o

lemma combineFirst_some_some (a b : String) :
    combineFirst (some a) (some b) = some (min a b) := by
  show some (if b < a then b else a) = some (min a b)
  rcases lt_or_ge b a with h | h
  · rw [if_pos h, min_eq_right h.le]
  · rw [if_neg (not_lt.mpr h), min_eq_left h]

lemma combineLast_some_some (a b : String) :
    combineLast (some a) (some b) = some (max a b) := by
  show some (if a < b then b else a) = some (max a b)
  rcases lt_or_ge a b with h | h
  · rw [if_pos h, max_eq_right h.le]
  · rw [if_neg (not_lt.mpr h), max_eq_left h]

lemma combineFirst_comm (x y : Option String) :
    combineFirst x y = combineFirst y x := by
  cases x <;> cases y <;>
    first
      | rfl
      | rw [combineFirst_some_some, combineFirst_some_some, min_comm]

lemma combineLast_comm (x y : Option String) :
    combineLast x y = combineLast y x := by
  cases x <;> cases y <;>
    first
      | rfl
      | rw [combineLast_some_some, combineLast_some_some, max_comm]

lemma combineFirst_assoc (x y z : Option String) :
    combineFirst (combineFirst x y) z = combineFirst x (combineFirst y z) := by
  cases x <;> cases y <;> cases z <;>
    first
      | rfl
      | rw [combineFirst_some_some, combineFirst_some_some,
          combineFirst_some_some, combineFirst_some_some, min_assoc]

lemma combineLast_assoc (x y z : Option String) :
    combineLast (combineLast x y) z = combineLast x (combineLast y z) := by
  cases x <;> cases y <;> cases z <;>
    first
      | rfl
      | rw [combineLast_some_some, combineLast_some_some,
          combineLast_some_some, combineLast_some_some, max_assoc]

lemma mergeEntry_comm (a b : Entry) : mergeEntry a b = mergeEntry b a := by
  simp only [mergeEntry, Entry.mk.injEq]
  refine ⟨?_, ?_, ?_, ?_, ?_, ?_, ?_, ?_⟩
  · exact Nat.add_comm _ _
  · exact Nat.add_comm _ _
  · exact Nat.add_comm _ _
  · exact Nat.add_comm _ _
  · exact Nat.add_comm _ _
  · exact Nat.add_comm _ _
  · exact combineFirst_comm _ _
  · exact combineLast_comm _ _

lemma mergeEntry_assoc (a b c : Entry) :
    mergeEntry (mergeEntry a b) c = mergeEntry a (mergeEntry b c) := by
  simp only [mergeEntry, Entry.mk.injEq]
  refine ⟨?_, ?_, ?_, ?_, ?_, ?_, ?_, ?_⟩
  · exact Nat.add_assoc _ _ _
  · exact Nat.add_assoc _ _ _
  · exact Nat.add_assoc _ _ _
  · exact Nat.add_assoc _ _ _
  · exact Nat.add_assoc _ _ _
  · exact Nat.add_assoc _ _ _
  · exact combineFirst_assoc _ _ _
  · exact combineLast_assoc _ _ _

instance : Std.Commutative mergeEntry := ⟨mergeEntry_comm⟩
instance : Std.Associative mergeEntry := ⟨mergeEntry_assoc⟩

lemma combineFirst_none_left (x : Option String) : combineFirst none x = x := by
  cases x <;> rfl

lemma combineLast_none_left (x : Option String) : combineLast none x = x := by
  cases x <;> rfl

lemma mergeEntry_init_left (e : Entry) : mergeEntry Entry.init e = e := by
  simp [mergeEntry, Entry.init, combineFirst_none_left, combineLast_none_left]

lemma applyEntries_some (a : Entry) (es : List Entry) :
    applyEntries (some a) es = some (es.foldl mergeEntry a) := by
  induction es generalizing a with
  | nil => rfl
  | cons e es ih => simpa [applyEntries] using ih (mergeEntry a e)

lemma applyEntries_none (es : List Entry) :
    applyEntries none es =
      match es with
      | [] => none
      | e :: tl => some (tl.foldl mergeEntry e) := by
  cases es with
  | nil => rfl
  | cons e tl => simpa [applyEntries] using applyEntries_some e tl

lemma applyEntries_none_eq_init (es : List Entry) (hne : es ≠ []) :
    applyEntries none es = some (es.foldl mergeEntry Entry.init) := by
  cases es with
  | nil => exact absurd rfl hne
  | cons e tl =>
      rw [applyEntries_none]
      simp [List.foldl_cons, mergeEntry_init_left]

lemma mergeSnapshots_foldl (rows : List (String × Entry))
    (acc : String → Option Entry) (l : String) :
    (rows.foldl mergeStep acc) l = applyEntries (acc l) (entriesFor rows l) := by
  induction rows generalizing acc with
  | nil => rfl
  | cons p ps ih =>
      rw [List.foldl_cons, ih]
      by_cases hl : l = p.1
      · subst hl
        simp [entriesFor, mergeStep, applyEntries]
      · have : ¬ p.1 = l := fun h => hl h.symm
        simp [entriesFor, mergeStep, hl, this]

lemma mergeSnapshots_eq (rows : List (String × Entry)) (l : String) :
    mergeSnapshots rows l = applyEntries none (entriesFor rows l) :=
  mergeSnapshots_foldl rows _ l

lemma entriesFor_perm {rows₁ rows₂ : List (String × Entry)}
    (h : rows₁.Perm rows₂) (l : String) :
    (entriesFor rows₁ l).Perm (entriesFor rows₂ l) :=
  (h.filter _).map _

/-- Projections of a `mergeEntry` fold compute field-wise folds. -/
lemma foldl_mergeEntry_fields (es : List Entry) (a : Entry) :
    (es.foldl mergeEntry a).total = a.total + (es.map Entry.total).sum ∧
    (es.foldl mergeEntry a).success = a.success + (es.map Entry.success).sum ∧
    (es.foldl mergeEntry a).rate_limited =
      a.rate_limited + (es.map Entry.rate_limited).sum ∧
    (es.foldl mergeEntry a).server_errors =
      a.server_errors + (es.map Entry.server_errors).sum ∧
    (es.foldl mergeEntry a).client_errors =
      a.client_errors + (es.map Entry.client_errors).sum ∧
    (es.foldl mergeEntry a).network_errors =
      a.network_errors + (es.map Entry.network_errors).sum ∧
    (es.foldl mergeEntry a).first_429_at =
      es.foldl (fun o e => combineFirst o e.first_429_at) a.first_429_at ∧
    (es.foldl mergeEntry a).last_429_at =
      es.foldl (fun o e => combineLast o e.last_429_at) a.last_429_at := by
  induction es generalizing a with
  | nil => simp
  | cons e es ih =>
      obtain ⟨h1, h2, h3, h4, h5, h6, h7, h8⟩ := ih (mergeEntry a e)
      refine ⟨?_, ?_, ?_, ?_, ?_, ?_, ?_, ?_⟩
      · rw [List.foldl_cons, h1]
        simp only [mergeEntry, List.map_cons, List.sum_cons]
        omega
      · rw [List.foldl_cons, h2]
        simp only [mergeEntry, List.map_cons, List.sum_cons]
        omega
      · rw [List.foldl_cons, h3]
        simp only [mergeEntry, List.map_cons, List.sum_cons]
        omega
      · rw [List.foldl_cons, h4]
        simp only [mergeEntry, List.map_cons, List.sum_cons]
        omega
      · rw [List.foldl_cons, h5]
        simp only [mergeEntry, List.map_cons, List.sum_cons]
        omega
      · rw [List.foldl_cons, h6]
        simp only [mergeEntry, List.map_cons, List.sum_cons]
        omega
      · rw [List.foldl_cons, List.foldl_cons, h7]
        rfl
      · rw [List.foldl_cons, List.foldl_cons, h8]
        rfl

lemma foldl_combineFirst_some (a : String) (ts : List (Option String)) :
    ts.foldl combineFirst (some a) = some ((ts.filterMap id).foldl min a) := by
  induction ts generalizing a with
  | nil => rfl
  | cons t ts ih =>
      cases t with
      | none => simpa [combineFirst] using ih a
      | some b => simpa [combineFirst_some_some] using ih (min a b)

lemma foldl_combineFirst_none (ts : List (Option String)) :
    ts.foldl combineFirst none = (ts.filterMap id).min? := by
  induction ts with
  | nil => rfl
  | cons t ts ih =>
      cases t with
      | none => simpa [combineFirst] using ih
      | some b =>
          simp only [List.foldl_cons, combineFirst,
            foldl_combineFirst_some b ts, List.filterMap_cons_some, id]
          rfl

lemma foldl_combineLast_some (a : String) (ts : List (Option String)) :
    ts.foldl combineLast (some a) = some ((ts.filterMap id).foldl max a) := by
  induction ts generalizing a with
  | nil => rfl
  | cons t ts ih =>
      cases t with
      | none => simpa [combineLast] using ih a
      | some b => simpa [combineLast_some_some] using ih (max a b)

lemma foldl_combineLast_none (ts : List (Option String)) :
    ts.foldl combineLast none = (ts.filterMap id).max? := by
  induction ts with
  | nil => rfl
  | cons t ts ih =>
      cases t with
      | none => simpa [combineLast] using ih
      | some b =>
          simp only [List.foldl_cons, combineLast,
            foldl_combineLast_some b ts, List.filterMap_cons_some, id]
          rfl

/-- The canonical aggregate entry for a label's list of snapshot entries:
each numeric field summed, `first_429_at` the (string-)earliest non-null
value, `last_429_at` the latest. -/
def aggregateEntry (es : List Entry) : Entry :=
  { total := (es.map Entry.total).sum
    success := (es.map Entry.success).sum
    rate_limited := (es.map Entry.rate_limited).sum
    server_errors := (es.map Entry.server_errors).sum
    client_errors := (es.map Entry.client_errors).sum
    network_errors := (es.map Entry.network_errors).sum
    first_429_at := (es.filterMap Entry.first_429_at).min?
    last_429_at := (es.filterMap Entry.last_429_at).max? }

/-- How one optional per-label aggregate combines with another (used to state
that merging two row groups separately and then together agrees with
merging them in one pass). -/
def combineOpt : Option Entry → Option Entry → Option Entry
  | none, o => o
  | some a, none => some a
  | some a, some b => some (mergeEntry a b)

lemma filterMap_eq_foldl_proj (es : List Entry) (f : Entry → Option String) :
    (es.map f).filterMap id = es.filterMap f := by
  induction es with
  | nil => rfl
  | cons e es ih => cases h : f e <;> simp [h, ih]

lemma applyEntries_canonical (es : List Entry) (hne : es ≠ []) :
    applyEntries none es = some (aggregateEntry es) := by
  rw [applyEntries_none_eq_init es hne]
  obtain ⟨h1, h2, h3, h4, h5, h6, h7, h8⟩ := foldl_mergeEntry_fields es Entry.init
  have hfirst : (es.foldl mergeEntry Entry.init).first_429_at =
      (es.filterMap Entry.first_429_at).min? := by
    have hm : es.foldl (fun o e => combineFirst o e.first_429_at) Entry.init.first_429_at =
        (es.map Entry.first_429_at).foldl combineFirst none := by
      simp [Entry.init, List.foldl_map]
    rw [h7, hm, foldl_combineFirst_none, filterMap_eq_foldl_proj]
  have hlast : (es.foldl mergeEntry Entry.init).last_429_at =
      (es.filterMap Entry.last_429_at).max? := by
    have hm : es.foldl (fun o e => combineLast o e.last_429_at) Entry.init.last_429_at =
        (es.map Entry.last_429_at).foldl combineLast none := by
      simp [Entry.init, List.foldl_map]
    rw [h8, hm, foldl_combineLast_none, filterMap_eq_foldl_proj]
  congr 1
  refine Entry.ext ?_ ?_ ?_ ?_ ?_ ?_ ?_ ?_
  · simpa [Entry.init, aggregateEntry] using h1
  · simpa [Entry.init, aggregateEntry] using h2
  · simpa [Entry.init, aggregateEntry] using h3
  · simpa [Entry.init, aggregateEntry] using h4
  · simpa [Entry.init, aggregateEntry] using h5
  · simpa [Entry.init, aggregateEntry] using h6
  · simpa [aggregateEntry] using hfirst
  · simpa [aggregateEntry] using hlast

lemma applyEntries_combineOpt (o : Option Entry) (es : List Entry) :
    applyEntries o es = combineOpt o (applyEntries none es) := by
  cases o with
  | none => rfl
  | some a =>
      cases es with
      | nil => rfl
      | cons e tl =>
          rw [applyEntries_some, applyEntries_none]
          show some (List.foldl mergeEntry (mergeEntry a e) tl) = _
          rw [List.foldl_assoc]
          rfl

/-- C4 — snapshot merging is order- and partition-insensitive, and computes
the canonical per-label aggregate: (1) permuting the snapshot rows does not
change any label's merged entry; (2) merging two row groups separately and
then combining agrees with merging their concatenation in one pass;
(3) for every label the merged entry sums all numeric fields and keeps the
earliest non-null `first_429_at` and the latest non-null `last_429_at`
(`none` exactly when the label occurs in no row). -/
theorem c4_merge_insensitive :
    (∀ rows₁ rows₂ : List (String × Entry), rows₁.Perm rows₂ →
      ∀ l, mergeSnapshots rows₁ l = mergeSnapshots rows₂ l) ∧
    (∀ rows₁ rows₂ : List (String × Entry), ∀ l,
      mergeSnapshots (rows₁ ++ rows₂) l =
        combineOpt (mergeSnapshots rows₁ l) (mergeSnapshots rows₂ l)) ∧
    (∀ rows : List (String × Entry), ∀ l,
      mergeSnapshots rows l =
        if entriesFor rows l = [] then none
        else some (aggregateEntry (entriesFor rows l))) := by
  refine ⟨?_, ?_, ?_⟩
  · intro rows₁ rows₂ hperm l
    rw [mergeSnapshots_eq, mergeSnapshots_eq]
    have hp := entriesFor_perm hperm l
    by_cases hne : entriesFor rows₁ l = []
    · have h₂ : entriesFor rows₂ l = [] := by
        have hnil : ([] : List Entry).Perm (entriesFor rows₂ l) := hne ▸ hp
        exact hnil.symm.eq_nil
      rw [hne, h₂]
    · have hne₂ : entriesFor rows₂ l ≠ [] := by
        intro h
        exact hne (h ▸ hp).eq_nil
      rw [applyEntries_none_eq_init _ hne, applyEntries_none_eq_init _ hne₂,
        hp.foldl_op_eq]
  · intro rows₁ rows₂ l
    show (List.foldl mergeStep (fun _ => none) (rows₁ ++ rows₂)) l = _
    rw [List.foldl_append, mergeSnapshots_foldl, applyEntries_combineOpt,
      ← mergeSnapshots_eq]
    rfl
  · intro rows l
    rw [mergeSnapshots_eq]
    rcases h : entriesFor rows l with _ | ⟨e, tl⟩
    · simp [applyEntries]
    · rw [if_neg (by simp), applyEntries_canonical _ (by simp)]

/-- C4 witness — the theorem applied to concrete rows: two snapshot row lists
that are permutations of one another, and a concrete split, agree on the
label "Hunter domain-search". -/
theorem c4_merge_insensitive_witness :
    mergeSnapshots
        [("Hunter domain-search", ⟨3, 1, 1, 1, 0, 0, some "t2", some "t2"⟩),
         ("Serper OSINT", ⟨1, 1, 0, 0, 0, 0, none, none⟩),
         ("Hunter domain-search", ⟨2, 2, 1, 0, 0, 0, some "t1", some "t4"⟩)]
        "Hunter domain-search" =
      mergeSnapshots
        [("Hunter domain-search", ⟨2, 2, 1, 0, 0, 0, some "t1", some "t4"⟩),
         ("Hunter domain-search", ⟨3, 1, 1, 1, 0, 0, some "t2", some "t2"⟩),
         ("Serper OSINT", ⟨1, 1, 0, 0, 0, 0, none, none⟩)]
        "Hunter domain-search" :=
  c4_merge_insensitive.1 _ _ (by decide) _

/-! ### The retrying call executor (`call_with_retry`, api_utils.py lines 419-526) -/

/-- `RETRYABLE_STATUS_CODES = {429, 500, 502, 503, 504}` (api_utils.py line 23). -/
def RETRYABLE_STATUS_CODES : List Int := [429, 500, 502, 503, 504]

/-- The Retry-After header of a response, abstracted to the three cases
`_parse_retry_after` distinguishes (api_utils.py lines 512-526): absent (or
unparseable), a numeric value (Python `float(header)` succeeds), or an HTTP
date whose distance from the current time is `delta` seconds. -/
inductive RetryAfter where
  | absent
  | seconds (n : ℚ)
  | httpDate (delta : ℚ)
  deriving Repr, DecidableEq

/-- The part of a `requests.Response` that `call_with_retry` inspects. -/
structure Response where
  status_code : Int
  retry_after : RetryAfter
  deriving Repr, DecidableEq

/-- `_parse_retry_after(response)` (api_utils.py lines 512-526): a numeric
header parses to its value; an HTTP date parses to `max(0.0, delta)`;
otherwise `None`. -/
def parse_retry_after (r : Response) : Option ℚ :=
  match r.retry_after with
  | .absent => none
  | .seconds n => some n
  | .httpDate delta => some (max 0 delta)

/-- What one invocation of the thunk `fn()` does: raise, or return a
response. `call_with_retry` consumes a sequence of outcomes, one per
attempt (attempts are numbered from 1 as in the Python loop). -/
inductive Outcome where
  | exn
  | resp (r : Response)
  deriving Repr, DecidableEq

/-- How `call_with_retry` ends: return a response, re-raise the final
exception, or fall out of the loop returning `last_response` (the trailing
`return last_response`, api_utils.py line 486 — reachable only when the
loop body never runs). -/
inductive CallResult where
  | ok (r : Response)
  | raised
  | fallback (r : Option Response)
  deriving Repr, DecidableEq

/-- The observable behaviour of one `call_with_retry` invocation: status
codes recorded to the tracker under the label (in order, −1 for a network
error), the delays slept between attempts, and the final result. -/
structure Run where
  recorded : List Int
  sleeps : List ℚ
  result : CallResult
  deriving Repr, DecidableEq

/-- The delay slept after a retryable response (api_utils.py lines 476-477):
`wait = retry_after if retry_after else min(delay, max_delay)` — note Python
truthiness: a parsed Retry-After of `0.0` is falsy, so only a nonzero parsed
value overrides the computed backoff delay. -/
def retryWait (r : Response) (delay max_delay : ℚ) : ℚ :=
  match parse_retry_after r with
  | some t => if t ≠ 0 then t else min delay max_delay
  | none => min delay max_delay

/-- The loop of `call_with_retry` (api_utils.py lines 441-484). `fuel` is
the number of remaining loop iterations (`range(1, max_retries + 2)` runs
`max 0 (max_retries + 1)` of them), `attempt` the 1-based attempt counter,
`delay` the current backoff delay, `lastResponse` the `last_response`
variable. Each iteration records the attempt's status, then either returns,
raises, or sleeps and multiplies the delay by `backoff`. -/
def call_with_retry_aux (fn : ℕ → Outcome) (max_retries : ℤ)
    (max_delay backoff : ℚ) :
    ℕ → ℕ → ℚ → Option Response → Run
  | 0, _, _, lastResponse => ⟨[], [], .fallback lastResponse⟩
  | fuel+1, attempt, delay, lastResponse =>
    match fn attempt with
    | .exn =>
        if (attempt : ℤ) > max_retries then
          ⟨[-1], [], .raised⟩
        else
          let rest := call_with_retry_aux fn max_retries max_delay backoff
            fuel (attempt+1) (delay * backoff) lastResponse
          ⟨-1 :: rest.recorded, min delay max_delay :: rest.sleeps, rest.result⟩
    | .resp r =>
        if r.status_code ∉ RETRYABLE_STATUS_CODES then
          ⟨[r.status_code], [], .ok r⟩
        else if (attempt : ℤ) > max_retries then
          ⟨[r.status_code], [], .ok r⟩
        else
          let rest := call_with_retry_aux fn max_retries max_delay backoff
            fuel (attempt+1) (delay * backoff) (some r)
          ⟨r.status_code :: rest.recorded, retryWait r delay max_delay :: rest.sleeps,
            rest.result⟩

/-- `call_with_retry(fn, label, max_retries, base_delay, max_delay, backoff)`
(api_utils.py lines 423-486), as the run it produces. Defaults in the
source: `max_retries = 4`, `base_delay = 2.0`, `max_delay = 60.0`,
`backoff = 2.0`. -/
def call_with_retry (fn : ℕ → Outcome) (max_retries : ℤ)
    (base_delay max_delay backoff : ℚ) : Run :=
  call_with_retry_aux fn max_retries max_delay backoff
    (max_retries + 1).toNat 1 base_delay none

lemma aux_step_exn_raise (fn : ℕ → Outcome) (mr : ℤ) (maxD bo : ℚ)
    (fuel attempt : ℕ) (delay : ℚ) (lastR : Option Response)
    (hr : fn attempt = .exn) (hgt : (attempt : ℤ) > mr) :
    call_with_retry_aux fn mr maxD bo (fuel+1) attempt delay lastR =
      ⟨[-1], [], .raised⟩ := by
  simp [call_with_retry_aux, hr, hgt]

lemma aux_step_exn_retry (fn : ℕ → Outcome) (mr : ℤ) (maxD bo : ℚ)
    (fuel attempt : ℕ) (delay : ℚ) (lastR : Option Response)
    (hr : fn attempt = .exn) (hle : (attempt : ℤ) ≤ mr) :
    call_with_retry_aux fn mr maxD bo (fuel+1) attempt delay lastR =
      let rest := call_with_retry_aux fn mr maxD bo fuel (attempt+1) (delay * bo) lastR
      ⟨-1 :: rest.recorded, min delay maxD :: rest.sleeps, rest.result⟩ := by
  simp [call_with_retry_aux, hr, not_lt.mpr hle]

lemma aux_step_done (fn : ℕ → Outcome) (mr : ℤ) (maxD bo : ℚ)
    (fuel attempt : ℕ) (delay : ℚ) (lastR : Option Response) (r : Response)
    (hr : fn attempt = .resp r) (hmem : r.status_code ∉ RETRYABLE_STATUS_CODES) :
    call_with_retry_aux fn mr maxD bo (fuel+1) attempt delay lastR =
      ⟨[r.status_code], [], .ok r⟩ := by
  simp [call_with_retry_aux, hr, hmem]

lemma aux_step_giveup (fn : ℕ → Outcome) (mr : ℤ) (maxD bo : ℚ)
    (fuel attempt : ℕ) (delay : ℚ) (lastR : Option Response) (r : Response)
    (hr : fn attempt = .resp r) (hmem : r.status_code ∈ RETRYABLE_STATUS_CODES)
    (hgt : (attempt : ℤ) > mr) :
    call_with_retry_aux fn mr maxD bo (fuel+1) attempt delay lastR =
      ⟨[r.status_code], [], .ok r⟩ := by
  simp [call_with_retry_aux, hr, hmem, hgt]

lemma aux_step_retry (fn : ℕ → Outcome) (mr : ℤ) (maxD bo : ℚ)
    (fuel attempt : ℕ) (delay : ℚ) (lastR : Option Response) (r : Response)
    (hr : fn attempt = .resp r) (hmem : r.status_code ∈ RETRYABLE_STATUS_CODES)
    (hle : (attempt : ℤ) ≤ mr) :
    call_with_retry_aux fn mr maxD bo (fuel+1) attempt delay lastR =
      let rest := call_with_retry_aux fn mr maxD bo fuel (attempt+1) (delay * bo) (some r)
      ⟨r.status_code :: rest.recorded, retryWait r delay maxD :: rest.sleeps,
        rest.result⟩ := by
  simp [call_with_retry_aux, hr, hmem, not_lt.mpr hle]

/-- The delay one loop iteration sleeps before the next attempt, as a
function of that attempt's outcome and the current backoff delay: a network
error sleeps `min(delay, max_delay)` (api_utils.py line 449), a retryable
response sleeps the Retry-After override or the capped delay (lines
476-477). -/
def waitFor (o : Outcome) (delay max_delay : ℚ) : ℚ :=
  match o with
  | .exn => min delay max_delay
  | .resp r => retryWait r delay max_delay

/-- The i-th sleep (0-based) of a run belongs to attempt `attempt + i`, at
which point the backoff delay has been multiplied `i` times. -/
lemma aux_sleeps (fn : ℕ → Outcome) (mr : ℤ) (maxD bo : ℚ) :
    ∀ (fuel attempt : ℕ) (delay : ℚ) (lastR : Option Response) (i : ℕ),
      i < (call_with_retry_aux fn mr maxD bo fuel attempt delay lastR).sleeps.length →
      (call_with_retry_aux fn mr maxD bo fuel attempt delay lastR).sleeps[i]? =
        some (waitFor (fn (attempt + i)) (delay * bo ^ i) maxD) := by
  intro fuel
  induction fuel with
  | zero =>
      intro attempt delay lastR i h
      simp [call_with_retry_aux] at h
  | succ f ih =>
      intro attempt delay lastR i h
      cases hfn : fn attempt with
      | exn =>
          by_cases hgt : (attempt : ℤ) > mr
          · rw [aux_step_exn_raise fn mr maxD bo f attempt delay lastR hfn hgt] at h
            simp at h
          · have hle := not_lt.mp hgt
            rw [aux_step_exn_retry fn mr maxD bo f attempt delay lastR hfn hle] at h ⊢
            cases i with
            | zero => simp [waitFor, hfn]
            | succ j =>
                simp only [List.length_cons, Nat.succ_lt_succ_iff] at h
                have hj := ih (attempt+1) (delay*bo) lastR j h
                have harg : attempt + 1 + j = attempt + (j + 1) := by omega
                have hdel : delay * bo * bo ^ j = delay * bo ^ (j + 1) := by ring
                rw [harg, hdel] at hj
                simpa using hj
      | resp r =>
          by_cases hmem : r.status_code ∈ RETRYABLE_STATUS_CODES
          · by_cases hgt : (attempt : ℤ) > mr
            · rw [aux_step_giveup fn mr maxD bo f attempt delay lastR r hfn hmem hgt] at h
              simp at h
            · have hle := not_lt.mp hgt
              rw [aux_step_retry fn mr maxD bo f attempt delay lastR r hfn hmem hle] at h ⊢
              cases i with
              | zero => simp [waitFor, hfn]
              | succ j =>
                  simp only [List.length_cons, Nat.succ_lt_succ_iff] at h
                  have hj := ih (attempt+1) (delay*bo) (some r) j h
                  have harg : attempt + 1 + j = attempt + (j + 1) := by omega
                  have hdel : delay * bo * bo ^ j = delay * bo ^ (j + 1) := by ring
                  rw [harg, hdel] at hj
                  simpa using hj
          · rw [aux_step_done fn mr maxD bo f attempt delay lastR r hfn hmem] at h
            simp at h

/-- C6 (amended) — when attempt `i+1` yields a retryable response and a
sleep happens before attempt `i+2`, that sleep is: the parsed Retry-After
value when it parses and is nonzero (overriding the computed backoff);
otherwise — header absent/unparseable, or parsing to `0.0`, which is falsy
in Python — the computed exponential delay `base·backoff^i` capped at
`max_delay`. -/
theorem c6_retry_after_override (fn : ℕ → Outcome) (mr : ℤ)
    (base maxD bo : ℚ) (i : ℕ) (r : Response)
    (hresp : fn (i + 1) = .resp r)
    (hlen : i < (call_with_retry fn mr base maxD bo).sleeps.length) :
    (∀ N : ℚ, parse_retry_after r = some N → N ≠ 0 →
      (call_with_retry fn mr base maxD bo).sleeps[i]? = some N) ∧
    (parse_retry_after r = none →
      (call_with_retry fn mr base maxD bo).sleeps[i]? =
        some (min (base * bo ^ i) maxD)) ∧
    (parse_retry_after r = some 0 →
      (call_with_retry fn mr base maxD bo).sleeps[i]? =
        some (min (base * bo ^ i) maxD)) := by
  have hkey := aux_sleeps fn mr maxD bo (mr + 1).toNat 1 base none i hlen
  have harg : 1 + i = i + 1 := by omega
  rw [harg, hresp] at hkey
  refine ⟨?_, ?_, ?_⟩
  · intro N hN hN0
    rw [show (call_with_retry fn mr base maxD bo).sleeps =
        (call_with_retry_aux fn mr maxD bo (mr + 1).toNat 1 base none).sleeps from rfl,
      hkey]
    simp [waitFor, retryWait, hN, hN0]
  · intro hnone
    rw [show (call_with_retry fn mr base maxD bo).sleeps =
        (call_with_retry_aux fn mr maxD bo (mr + 1).toNat 1 base none).sleeps from rfl,
      hkey]
    simp [waitFor, retryWait, hnone]
  · intro hzero
    rw [show (call_with_retry fn mr base maxD bo).sleeps =
        (call_with_retry_aux fn mr maxD bo (mr + 1).toNat 1 base none).sleeps from rfl,
      hkey]
    simp [waitFor, retryWait, hzero]

/-- C6 counterexample — the claim as frozen says a parseable Retry-After of
N seconds always overrides; with N = 0 (header "0", which Python parses but
treats as falsy) the executor sleeps the computed backoff delay 2, not 0. -/
theorem c6_counterexample :
    parse_retry_after ⟨429, RetryAfter.seconds 0⟩ = some 0 ∧
    (call_with_retry
        (fun n => if n = 1 then .resp ⟨429, RetryAfter.seconds 0⟩
          else .resp ⟨200, RetryAfter.absent⟩)
        4 2 60 2).sleeps = [2] ∧
    (2 : ℚ) ≠ 0 := by
  refine ⟨rfl, ?_, by norm_num⟩
  decide

/-- C6 witness — a Retry-After of 7 seconds on a 429 first attempt makes the
first sleep exactly 7 (the computed backoff delay would have been 2). -/
theorem c6_retry_after_override_witness :
    (call_with_retry
        (fun n => if n = 1 then .resp ⟨429, RetryAfter.seconds 7⟩
          else .resp ⟨200, RetryAfter.absent⟩)
        4 2 60 2).sleeps[0]? = some 7 :=
  (c6_retry_after_override
      (fun n => if n = 1 then .resp ⟨429, RetryAfter.seconds 7⟩
        else .resp ⟨200, RetryAfter.absent⟩)
      4 2 60 2 0 ⟨429, RetryAfter.seconds 7⟩ rfl (by decide)).1
    7 rfl (by norm_num)

lemma aux_all_exn (fn : ℕ → Outcome) (mr : ℤ) (maxD bo : ℚ)
    (hfn : ∀ n, fn n = .exn) :
    ∀ (fuel attempt : ℕ) (delay : ℚ) (lastR : Option Response),
      (attempt : ℤ) + fuel = mr + 2 → 1 ≤ fuel →
      (call_with_retry_aux fn mr maxD bo fuel attempt delay lastR).recorded =
        List.replicate fuel (-1) ∧
      (call_with_retry_aux fn mr maxD bo fuel attempt delay lastR).result = .raised := by
  intro fuel
  induction fuel with
  | zero => intro attempt delay lastR _ h; omega
  | succ f ih =>
      intro attempt delay lastR hsum _
      by_cases hf : f = 0
      · subst hf
        have hgt : (attempt : ℤ) > mr := by omega
        rw [aux_step_exn_raise fn mr maxD bo 0 attempt delay lastR (hfn attempt) hgt]
        simp
      · have hle : (attempt : ℤ) ≤ mr := by omega
        rw [aux_step_exn_retry fn mr maxD bo f attempt delay lastR (hfn attempt) hle]
        obtain ⟨hrec, hres⟩ := ih (attempt+1) (delay*bo) lastR (by push_cast; omega)
          (by omega)
        simp [hrec, hres, List.replicate_succ]

lemma aux_all_retryable (fn : ℕ → Outcome) (mr : ℤ) (maxD bo : ℚ) (r : Response)
    (hfn : ∀ n, fn n = .resp r) (hmem : r.status_code ∈ RETRYABLE_STATUS_CODES) :
    ∀ (fuel attempt : ℕ) (delay : ℚ) (lastR : Option Response),
      (attempt : ℤ) + fuel = mr + 2 → 1 ≤ fuel →
      (call_with_retry_aux fn mr maxD bo fuel attempt delay lastR).recorded =
        List.replicate fuel r.status_code ∧
      (call_with_retry_aux fn mr maxD bo fuel attempt delay lastR).result = .ok r := by
  intro fuel
  induction fuel with
  | zero => intro attempt delay lastR _ h; omega
  | succ f ih =>
      intro attempt delay lastR hsum _
      by_cases hf : f = 0
      · subst hf
        have hgt : (attempt : ℤ) > mr := by omega
        rw [aux_step_giveup fn mr maxD bo 0 attempt delay lastR r (hfn attempt) hmem hgt]
        simp
      · have hle : (attempt : ℤ) ≤ mr := by omega
        rw [aux_step_retry fn mr maxD bo f attempt delay lastR r (hfn attempt) hmem hle]
        obtain ⟨hrec, hres⟩ := ih (attempt+1) (delay*bo) (some r) (by push_cast; omega)
          (by omega)
        simp [hrec, hres, List.replicate_succ]

/-- C7 — transport-level faults (the thunk raising) consume exactly the same
retry budget as retryable HTTP statuses: with `max_retries = m ≥ 0`, a thunk
that always raises is attempted `m + 1` times (all recorded as network
errors, −1) and then the exception propagates to the caller (`.raised`,
never swallowed into a normal return); a thunk that always returns a
retryable status is likewise attempted `m + 1` times and the last failed
response is returned to the caller. -/
theorem c7_transport_faults_like_retryable (fn g : ℕ → Outcome) (mr : ℤ)
    (base maxD bo : ℚ) (r : Response) (hmr : 0 ≤ mr)
    (hfn : ∀ n, fn n = .exn)
    (hg : ∀ n, g n = .resp r) (hmem : r.status_code ∈ RETRYABLE_STATUS_CODES) :
    (call_with_retry fn mr base maxD bo).recorded =
      List.replicate (mr.toNat + 1) (-1) ∧
    (call_with_retry fn mr base maxD bo).result = .raised ∧
    (call_with_retry g mr base maxD bo).recorded =
      List.replicate (mr.toNat + 1) r.status_code ∧
    (call_with_retry g mr base maxD bo).result = .ok r := by
  have hfuel : (mr + 1).toNat = mr.toNat + 1 := by omega
  have h1 := aux_all_exn fn mr maxD bo hfn (mr + 1).toNat 1 base none (by omega) (by omega)
  have h2 := aux_all_retryable g mr maxD bo r hg hmem (mr + 1).toNat 1 base none
    (by omega) (by omega)
  unfold call_with_retry
  rw [← hfuel]
  exact ⟨h1.1, h1.2, h2.1, h2.2⟩

/-- C7 witness — concrete: a thunk raising on all 3 allowed attempts
(max_retries = 2) records three −1 outcomes then re-raises; a thunk always
returning 502 records three 502 outcomes then returns the 502 response. -/
theorem c7_transport_faults_like_retryable_witness :
    (call_with_retry (fun _ => Outcome.exn) 2 2 60 2).recorded = [-1, -1, -1] ∧
    (call_with_retry (fun _ => Outcome.exn) 2 2 60 2).result = .raised ∧
    (call_with_retry (fun _ => Outcome.resp ⟨502, RetryAfter.absent⟩) 2 2 60 2).recorded =
      [502, 502, 502] ∧
    (call_with_retry (fun _ => Outcome.resp ⟨502, RetryAfter.absent⟩) 2 2 60 2).result =
      .ok ⟨502, RetryAfter.absent⟩ :=
  c7_transport_faults_like_retryable (fun _ => Outcome.exn)
    (fun _ => Outcome.resp ⟨502, RetryAfter.absent⟩) 2 2 60 2
    ⟨502, RetryAfter.absent⟩ (by norm_num) (fun _ => rfl) (fun _ => rfl) (by decide)

lemma aux_no_fallback (fn : ℕ → Outcome) (mr : ℤ) (maxD bo : ℚ) :
    ∀ (fuel attempt : ℕ) (delay : ℚ) (lastR : Option Response),
      (attempt : ℤ) + fuel = mr + 2 → 1 ≤ fuel →
      (∀ o, (call_with_retry_aux fn mr maxD bo fuel attempt delay lastR).result ≠
        .fallback o) ∧
      (call_with_retry_aux fn mr maxD bo fuel attempt delay lastR).recorded.length ≤
        fuel ∧
      ((∃ r, (call_with_retry_aux fn mr maxD bo fuel attempt delay lastR).result =
          .ok r ∧ ∃ j, attempt ≤ j ∧ (j : ℤ) ≤ mr + 1 ∧ fn j = .resp r) ∨
        (call_with_retry_aux fn mr maxD bo fuel attempt delay lastR).result =
          .raised) := by
  intro fuel
  induction fuel with
  | zero => intro attempt delay lastR _ h; omega
  | succ f ih =>
      intro attempt delay lastR hsum _
      have hatt : (attempt : ℤ) ≤ mr + 1 := by omega
      cases hfn : fn attempt with
      | exn =>
          by_cases hgt : (attempt : ℤ) > mr
          · rw [aux_step_exn_raise fn mr maxD bo f attempt delay lastR hfn hgt]
            refine ⟨by simp, by simp, Or.inr rfl⟩
          · have hle := not_lt.mp hgt
            rw [aux_step_exn_retry fn mr maxD bo f attempt delay lastR hfn hle]
            obtain ⟨hnf, hlen, hres⟩ := ih (attempt+1) (delay*bo) lastR
              (by push_cast; omega) (by omega)
            refine ⟨by simpa using hnf, by simpa using hlen, ?_⟩
            rcases hres with ⟨r, hok, j, hj1, hj2, hj3⟩ | hraised
            · exact Or.inl ⟨r, by simpa using hok, j, by omega, hj2, hj3⟩
            · exact Or.inr (by simpa using hraised)
      | resp r =>
          by_cases hmem : r.status_code ∈ RETRYABLE_STATUS_CODES
          · by_cases hgt : (attempt : ℤ) > mr
            · rw [aux_step_giveup fn mr maxD bo f attempt delay lastR r hfn hmem hgt]
              exact ⟨by simp, by simp, Or.inl ⟨r, rfl, attempt, le_rfl, hatt, hfn⟩⟩
            · have hle := not_lt.mp hgt
              rw [aux_step_retry fn mr maxD bo f attempt delay lastR r hfn hmem hle]
              obtain ⟨hnf, hlen, hres⟩ := ih (attempt+1) (delay*bo) (some r)
                (by push_cast; omega) (by omega)
              refine ⟨by simpa using hnf, by simpa using hlen, ?_⟩
              rcases hres with ⟨r', hok, j, hj1, hj2, hj3⟩ | hraised
              · exact Or.inl ⟨r', by simpa using hok, j, by omega, hj2, hj3⟩
              · exact Or.inr (by simpa using hraised)
          · rw [aux_step_done fn mr maxD bo f attempt delay lastR r hfn hmem]
            exact ⟨by simp, by simp, Or.inl ⟨r, rfl, attempt, le_rfl, hatt, hfn⟩⟩

/-- C10 — for every `max_retries ≥ 0` and every thunk, `call_with_retry`
makes at most `max_retries + 1` attempts (one tracker record per attempt)
and ends by either returning a response produced by one of those attempts
(numbered 1 … max_retries+1) or re-raising the final attempt's exception;
the trailing `return last_response` fallback (which could return `None`)
is never reached under that precondition. -/
theorem c10_bounded_attempts_no_fallback (fn : ℕ → Outcome) (mr : ℤ)
    (base maxD bo : ℚ) (hmr : 0 ≤ mr) :
    (∀ o, (call_with_retry fn mr base maxD bo).result ≠ .fallback o) ∧
    (call_with_retry fn mr base maxD bo).recorded.length ≤ mr.toNat + 1 ∧
    ((∃ r, (call_with_retry fn mr base maxD bo).result = .ok r ∧
        ∃ j : ℕ, 1 ≤ j ∧ (j : ℤ) ≤ mr + 1 ∧ fn j = .resp r) ∨
      (call_with_retry fn mr base maxD bo).result = .raised) := by
  have h := aux_no_fallback fn mr maxD bo (mr + 1).toNat 1 base none (by omega) (by omega)
  have hfuel : (mr + 1).toNat = mr.toNat + 1 := by omega
  unfold call_with_retry
  rw [← hfuel]
  exact h

/-- C10 witness — concrete: a thunk returning 500 then 200 with
max_retries = 4 stays within the budget, hits no fallback, and returns the
attempt-2 response. -/
theorem c10_bounded_attempts_no_fallback_witness :
    (∀ o, (call_with_retry
        (fun n => if n = 1 then .resp ⟨500, RetryAfter.absent⟩
          else .resp ⟨200, RetryAfter.absent⟩) 4 2 60 2).result ≠ .fallback o) ∧
    (call_with_retry
        (fun n => if n = 1 then .resp ⟨500, RetryAfter.absent⟩
          else .resp ⟨200, RetryAfter.absent⟩) 4 2 60 2).recorded.length ≤ 5 ∧
    ((∃ r, (call_with_retry
        (fun n => if n = 1 then .resp ⟨500, RetryAfter.absent⟩
          else .resp ⟨200, RetryAfter.absent⟩) 4 2 60 2).result = .ok r ∧
        ∃ j : ℕ, 1 ≤ j ∧ (j : ℤ) ≤ 5 ∧
          (fun n => if n = 1 then Outcome.resp ⟨500, RetryAfter.absent⟩
            else Outcome.resp ⟨200, RetryAfter.absent⟩) j = .resp r) ∨
      (call_with_retry
        (fun n => if n = 1 then .resp ⟨500, RetryAfter.absent⟩
          else .resp ⟨200, RetryAfter.absent⟩) 4 2 60 2).result = .raised) := by
  have h := c10_bounded_attempts_no_fallback
    (fun n => if n = 1 then .resp ⟨500, RetryAfter.absent⟩
      else .resp ⟨200, RetryAfter.absent⟩) 4 2 60 2 (by norm_num)
  simpa using h

/-- C5 — a thunk that returns 503 on attempts 1 and 2 and 200 on attempt 3
(with no Retry-After on the failures, and at least 2 retries allowed):
exactly 3 outcomes are recorded for the label (503, 503, 200 — two server
errors and one success in the tracker), the returned response is the
successful third one, and the delay slept before the third attempt,
`min(base·backoff, max_delay)`, is ≥ the delay slept before the second,
`min(base, max_delay)` (monotone backoff, given backoff ≥ 1). -/
theorem c5_two_503_then_success (fn : ℕ → Outcome) (mr : ℤ) (base maxD bo : ℚ)
    (r1 r2 r3 : Response)
    (h1 : fn 1 = .resp r1) (h2 : fn 2 = .resp r2) (h3 : fn 3 = .resp r3)
    (hs1 : r1.status_code = 503) (hs2 : r2.status_code = 503)
    (hs3 : r3.status_code = 200)
    (hra1 : r1.retry_after = .absent) (hra2 : r2.retry_after = .absent)
    (hmr : 2 ≤ mr) (hbase : 0 ≤ base) (hbo : 1 ≤ bo) :
    (call_with_retry fn mr base maxD bo).recorded = [503, 503, 200] ∧
    (call_with_retry fn mr base maxD bo).result = .ok r3 ∧
    (call_with_retry fn mr base maxD bo).sleeps =
      [min base maxD, min (base * bo) maxD] ∧
    min base maxD ≤ min (base * bo) maxD ∧
    List.foldl (fun e s => recordEntry e s "") Entry.init
        (call_with_retry fn mr base maxD bo).recorded =
      ⟨3, 1, 0, 2, 0, 0, none, none⟩ := by
  obtain ⟨k, hk⟩ : ∃ k, (mr + 1).toNat = k + 1 + 1 + 1 :=
    ⟨(mr + 1).toNat - 3, by omega⟩
  have hmem1 : r1.status_code ∈ RETRYABLE_STATUS_CODES := by rw [hs1]; decide
  have hmem2 : r2.status_code ∈ RETRYABLE_STATUS_CODES := by rw [hs2]; decide
  have hmem3 : r3.status_code ∉ RETRYABLE_STATUS_CODES := by rw [hs3]; decide
  have hrun : call_with_retry fn mr base maxD bo =
      ⟨[r1.status_code, r2.status_code, r3.status_code],
       [retryWait r1 base maxD, retryWait r2 (base * bo) maxD],
       .ok r3⟩ := by
    unfold call_with_retry
    rw [hk]
    rw [aux_step_retry fn mr maxD bo (k+1+1) 1 base none r1 h1 hmem1 (by omega)]
    simp only
    rw [aux_step_retry fn mr maxD bo (k+1) 2 (base * bo) (some r1) r2 h2 hmem2
      (by omega)]
    simp only
    rw [aux_step_done fn mr maxD bo k 3 (base * bo * bo) (some r2) r3 h3 hmem3]
  have hwait1 : retryWait r1 base maxD = min base maxD := by
    simp [retryWait, parse_retry_after, hra1]
  have hwait2 : retryWait r2 (base * bo) maxD = min (base * bo) maxD := by
    simp [retryWait, parse_retry_after, hra2]
  refine ⟨?_, ?_, ?_, ?_, ?_⟩
  · rw [hrun]
    simp [hs1, hs2, hs3]
  · rw [hrun]
  · rw [hrun]
    simp [hwait1, hwait2]
  · exact min_le_min (le_mul_of_one_le_right hbase hbo) le_rfl
  · rw [hrun]
    simp only [hs1, hs2, hs3]
    decide

/-- C5 witness — the theorem applied to the concrete thunk sequence
503, 503, 200 with the source's default parameters (max_retries 4,
base_delay 2, max_delay 60, backoff 2). -/
theorem c5_two_503_then_success_witness :
    (call_with_retry
        (fun n => if n = 1 then .resp ⟨503, RetryAfter.absent⟩
          else if n = 2 then .resp ⟨503, RetryAfter.absent⟩
          else .resp ⟨200, RetryAfter.absent⟩) 4 2 60 2).recorded =
      [503, 503, 200] ∧
    (call_with_retry
        (fun n => if n = 1 then .resp ⟨503, RetryAfter.absent⟩
          else if n = 2 then .resp ⟨503, RetryAfter.absent⟩
          else .resp ⟨200, RetryAfter.absent⟩) 4 2 60 2).result =
      .ok ⟨200, RetryAfter.absent⟩ ∧
    (call_with_retry
        (fun n => if n = 1 then .resp ⟨503, RetryAfter.absent⟩
          else if n = 2 then .resp ⟨503, RetryAfter.absent⟩
          else .resp ⟨200, RetryAfter.absent⟩) 4 2 60 2).sleeps =
      [min 2 60, min (2 * 2) 60] ∧
    min (2 : ℚ) 60 ≤ min (2 * 2) 60 ∧
    List.foldl (fun e s => recordEntry e s "") Entry.init
        (call_with_retry
          (fun n => if n = 1 then .resp ⟨503, RetryAfter.absent⟩
            else if n = 2 then .resp ⟨503, RetryAfter.absent⟩
            else .resp ⟨200, RetryAfter.absent⟩) 4 2 60 2).recorded =
      ⟨3, 1, 0, 2, 0, 0, none, none⟩ :=
  c5_two_503_then_success
    (fun n => if n = 1 then .resp ⟨503, RetryAfter.absent⟩
      else if n = 2 then .resp ⟨503, RetryAfter.absent⟩
      else .resp ⟨200, RetryAfter.absent⟩)
    4 2 60 2 ⟨503, RetryAfter.absent⟩ ⟨503, RetryAfter.absent⟩
    ⟨200, RetryAfter.absent⟩ rfl rfl rfl rfl rfl rfl rfl rfl
    (by norm_num) (by norm_num) (by norm_num)

/-! ### The waterfall enrichment strategy (`enrich.py`) -/

/-- `extract_domain(url)` (enrich.py lines 54-63): `None` for an empty URL,
otherwise strip the protocol and `www.` prefixes and keep everything before
the first slash. -/
def extract_domain (url : String) : Option String :=
  if url = "" then none
  else
    let clean_url := ((url.replace "https://" "").replace "http://" "").replace "www." ""
    some ((clean_url.splitOn "/").headD "")

/-- Python truthiness of an optional string (`if domain:`): false for `None`
and for the empty string. -/
def strTruthy (d : Option String) : Bool :=
  match d with
  | some s => !s.isEmpty
  | none => false

/-- The name information `step1_osint_serper` returns (enrich.py lines
111-193). -/
structure NameInfo where
  full_name : String
  first_name : String
  last_name : String
  title : String
  linkedin_url : String
  deriving Repr, DecidableEq

/-- What `step3_hunter_pattern` returns (enrich.py lines 196-276). -/
structure HunterInfo where
  pattern : String
  generic_email : String
  confidence : Int
  deriving Repr, DecidableEq

/-- What `step2_dropcontact` returns (enrich.py lines 279-372). -/
structure DropcontactResult where
  email : String
  source : String
  deriving Repr, DecidableEq

/-- The fields of `step4_apollo`'s result that `enrich_lead` reads
(enrich.py lines 375-449). -/
structure ApolloResult where
  email : String
  title : String
  source : String
  deriving Repr, DecidableEq

/-- What `step5_reconstruct_email` returns. -/
structure EmailResult where
  email : String
  email_source : String
  deriving Repr, DecidableEq

/-- `step5_reconstruct_email(name_info, hunter_info, domain)` (enrich.py
lines 452-495). CAS A: with a name, a pattern and a domain, instantiate the
pattern and clean up doubled separators; CAS B: fall back to Hunter's
generic email; CAS C: explicitly "not_found" — never a guess. -/
def step5_reconstruct_email (name_info : NameInfo) (hunter_info : HunterInfo)
    (domain : String) : EmailResult :=
  let first := name_info.first_name.toLower
  let last := name_info.last_name.toLower
  let pattern := hunter_info.pattern
  let generic := hunter_info.generic_email
  if first ≠ "" ∧ last ≠ "" ∧ pattern ≠ "" ∧ domain ≠ "" then
    let email := (((pattern.replace "{first}" first).replace "{last}" last).replace
      "{f}" (first.take 1)).replace "{l}" (last.take 1)
    let email := email ++ "@" ++ domain
    let email := ((email.replace ".." ".").replace "--" "-").replace "__" "_"
    ⟨email, "reconstructed"⟩
  else if generic ≠ "" then
    ⟨generic, "hunter_generic"⟩
  else
    ⟨"", "not_found"⟩

/-- The external providers `enrich_lead` may call, as oracle functions: each
models a `stepN_…` function's returned dictionary as a function of its
arguments (the HTTP traffic inside is opaque to the waterfall logic). -/
structure Providers where
  serper : String → NameInfo
  dropcontact : String → String → String → String → DropcontactResult
  hunter : String → HunterInfo
  apollo : String → String → String → Option String → ApolloResult

/-- Call-count instrumentation: which provider step functions a single
`enrich_lead` run invoked, in order. -/
inductive ProviderCall where
  | serper
  | dropcontact
  | hunter
  | apollo
  deriving Repr, DecidableEq

/-- The record `enrich_lead` returns (enrich.py lines 566-573). -/
structure EnrichResult where
  Email_Decideur : String
  Email_Source : String
  Nom_Decideur : String
  Poste_Decideur : String
  LinkedIn_URL : String
  deriving Repr, DecidableEq

/-- The Hunter stage of `enrich_lead` (enrich.py lines 544-554): after
calling Hunter, try pattern reconstruction when pattern and name are all
present, then fall back to Hunter's generic email; returns the
(email, source) pair it contributes, `("", "")` when it contributes
nothing. -/
def hunter_stage (name_info : NameInfo) (hunter_info : HunterInfo)
    (d : String) : String × String :=
  let recon_attempt :=
    if hunter_info.pattern ≠ "" ∧ name_info.first_name ≠ "" ∧
        name_info.last_name ≠ "" then
      let recon := step5_reconstruct_email name_info hunter_info d
      if recon.email ≠ "" then (recon.email, recon.email_source) else ("", "")
    else ("", "")
  if recon_attempt.1 ≠ "" then recon_attempt
  else if hunter_info.generic_email ≠ "" then
    (hunter_info.generic_email, "hunter_generic")
  else ("", "")

/-- `enrich_lead(company_name, website_url)` (enrich.py lines 498-575) with
the providers passed as oracles and the invoked provider steps logged:
Serper always runs; Dropcontact runs when Serper yielded a name; Hunter
(plus reconstruction/generic) runs when no email yet and the domain is
truthy; Apollo runs when there is still no email. -/
def enrich_lead (P : Providers) (company_name website_url : String) :
    EnrichResult × List ProviderCall :=
  let domain := extract_domain website_url
  let name_info := P.serper company_name
  let first_name := name_info.first_name
  let last_name := name_info.last_name
  let e1 : String × String :=
    if first_name ≠ "" ∧ last_name ≠ "" then
      let dc := P.dropcontact first_name last_name company_name website_url
      if dc.email ≠ "" then (dc.email, dc.source) else ("", "not_found")
    else ("", "not_found")
  let e2 : String × String :=
    if e1.1 = "" ∧ strTruthy domain then
      let h := P.hunter (domain.getD "")
      let hs := hunter_stage name_info h (domain.getD "")
      if hs.1 ≠ "" then hs else e1
    else e1
  let apollo_res : Option ApolloResult :=
    if e2.1 = "" then some (P.apollo first_name last_name company_name domain)
    else none
  let e3 : String × String :=
    match apollo_res with
    | some ap => if ap.email ≠ "" then (ap.email, ap.source) else e2
    | none => e2
  let title :=
    match apollo_res with
    | some ap =>
        if ap.email ≠ "" ∧ ap.title ≠ "" ∧ name_info.title = "" then ap.title
        else name_info.title
    | none => name_info.title
  (⟨e3.1, e3.2, name_info.full_name, title, name_info.linkedin_url⟩,
   [ProviderCall.serper] ++
     (if first_name ≠ "" ∧ last_name ≠ "" then [ProviderCall.dropcontact] else []) ++
     (if e1.1 = "" ∧ strTruthy domain then [ProviderCall.hunter] else []) ++
     (if e2.1 = "" then [ProviderCall.apollo] else []))

/-- C2 — the waterfall short-circuits: (a) if Serper produced a name and
Dropcontact returns a non-empty email for it, neither Hunter nor Apollo is
invoked; (b) if the domain is truthy and the Hunter stage (pattern
reconstruction or generic email) yields a non-empty email, Apollo is not
invoked. -/
theorem c2_waterfall_short_circuit (P : Providers) (company website : String) :
    ((P.serper company).first_name ≠ "" →
     (P.serper company).last_name ≠ "" →
     (P.dropcontact (P.serper company).first_name (P.serper company).last_name
        company website).email ≠ "" →
     ProviderCall.hunter ∉ (enrich_lead P company website).2 ∧
     ProviderCall.apollo ∉ (enrich_lead P company website).2) ∧
    (strTruthy (extract_domain website) = true →
     (hunter_stage (P.serper company)
        (P.hunter ((extract_domain website).getD ""))
        ((extract_domain website).getD "")).1 ≠ "" →
     ProviderCall.apollo ∉ (enrich_lead P company website).2) := by
  constructor
  · intro hfn hln hdc
    simp only [enrich_lead]
    split_ifs <;> simp_all
  · intro htru hhs
    simp only [enrich_lead]
    split_ifs <;> simp_all

/-- C2 witness — with a Dropcontact hit the call log is exactly
Serper + Dropcontact, and the theorem's part (a) certifies Hunter and
Apollo were not invoked. -/
theorem c2_waterfall_short_circuit_witness :
    ProviderCall.hunter ∉ (enrich_lead
      ⟨fun _ => ⟨"Jean Dupont", "Jean", "Dupont", "CEO", "li"⟩,
       fun _ _ _ _ => ⟨"jean.dupont@ex.fr", "dropcontact"⟩,
       fun _ => ⟨"", "", 0⟩,
       fun _ _ _ _ => ⟨"", "", "apollo_empty"⟩⟩
      "Ex" "https://ex.fr").2 ∧
    ProviderCall.apollo ∉ (enrich_lead
      ⟨fun _ => ⟨"Jean Dupont", "Jean", "Dupont", "CEO", "li"⟩,
       fun _ _ _ _ => ⟨"jean.dupont@ex.fr", "dropcontact"⟩,
       fun _ => ⟨"", "", 0⟩,
       fun _ _ _ _ => ⟨"", "", "apollo_empty"⟩⟩
      "Ex" "https://ex.fr").2 :=
  (c2_waterfall_short_circuit
    ⟨fun _ => ⟨"Jean Dupont", "Jean", "Dupont", "CEO", "li"⟩,
     fun _ _ _ _ => ⟨"jean.dupont@ex.fr", "dropcontact"⟩,
     fun _ => ⟨"", "", 0⟩,
     fun _ _ _ _ => ⟨"", "", "apollo_empty"⟩⟩
    "Ex" "https://ex.fr").1 (by decide) (by decide) (by decide)

/-- C8 — when every provider comes up empty (Dropcontact empty for the
Serper-derived name, the Hunter stage — reconstruction and generic —
empty, Apollo empty), `enrich_lead` returns `Email_Decideur = ""` and
`Email_Source = "not_found"`; and in general a non-empty returned email is
always one of: the Dropcontact email, the Hunter-stage email
(reconstructed or generic), or the Apollo email — never fabricated. -/
theorem c8_not_found_never_fabricated (P : Providers) (company website : String) :
    ((P.dropcontact (P.serper company).first_name (P.serper company).last_name
        company website).email = "" →
     (hunter_stage (P.serper company)
        (P.hunter ((extract_domain website).getD ""))
        ((extract_domain website).getD "")).1 = "" →
     (P.apollo (P.serper company).first_name (P.serper company).last_name
        company (extract_domain website)).email = "" →
     (enrich_lead P company website).1.Email_Decideur = "" ∧
     (enrich_lead P company website).1.Email_Source = "not_found") ∧
    ((enrich_lead P company website).1.Email_Decideur ≠ "" →
     ((enrich_lead P company website).1.Email_Decideur =
        (P.dropcontact (P.serper company).first_name
          (P.serper company).last_name company website).email ∨
      (enrich_lead P company website).1.Email_Decideur =
        (hunter_stage (P.serper company)
          (P.hunter ((extract_domain website).getD ""))
          ((extract_domain website).getD "")).1 ∨
      (enrich_lead P company website).1.Email_Decideur =
        (P.apollo (P.serper company).first_name (P.serper company).last_name
          company (extract_domain website)).email)) := by
  constructor
  · intro hdc hhs hap
    simp only [enrich_lead]
    split_ifs <;> simp_all
  · intro hne
    simp only [enrich_lead] at hne ⊢
    split_ifs at hne ⊢ <;>
      by_cases hap : (P.apollo (P.serper company).first_name
        (P.serper company).last_name company (extract_domain website)).email = "" <;>
      simp_all

/-- C8 witness — all-empty providers on a lead with a website: the record
is explicitly tagged not found. -/
theorem c8_not_found_never_fabricated_witness :
    (enrich_lead
      ⟨fun _ => ⟨"Jean Dupont", "Jean", "Dupont", "", ""⟩,
       fun _ _ _ _ => ⟨"", "dropcontact_empty"⟩,
       fun _ => ⟨"", "", 0⟩,
       fun _ _ _ _ => ⟨"", "", "apollo_empty"⟩⟩
      "Ex" "https://ex.fr").1.Email_Decideur = "" ∧
    (enrich_lead
      ⟨fun _ => ⟨"Jean Dupont", "Jean", "Dupont", "", ""⟩,
       fun _ _ _ _ => ⟨"", "dropcontact_empty"⟩,
       fun _ => ⟨"", "", 0⟩,
       fun _ _ _ _ => ⟨"", "", "apollo_empty"⟩⟩
      "Ex" "https://ex.fr").1.Email_Source = "not_found" :=
  (c8_not_found_never_fabricated
    ⟨fun _ => ⟨"Jean Dupont", "Jean", "Dupont", "", ""⟩,
     fun _ _ _ _ => ⟨"", "dropcontact_empty"⟩,
     fun _ => ⟨"", "", 0⟩,
     fun _ _ _ _ => ⟨"", "", "apollo_empty"⟩⟩
    "Ex" "https://ex.fr").1 (by decide) (by decide) (by decide)

/-! ### The checkpointed orchestrator (`run_pipeline.py`) -/

/-- The pipeline checkpoint state (run_pipeline.py lines 78-108): run id,
the run identity (industry, location, max_leads) and the ordered list of
completed step names. -/
structure PipeState where
  run_id : String
  industry : String
  location : String
  max_leads : Int
  steps_completed : List String
  deriving Repr, DecidableEq

/-- The fresh state `_load_state` and `main` build (run_pipeline.py lines
88-94 and 172-178); `now` is the timestamp string used as the run id. -/
def freshState (now industry location : String) (max_leads : Int) : PipeState :=
  ⟨now, industry, location, max_leads, []⟩

/-- `_load_state(state_file, industry, location, max_leads)`
(run_pipeline.py lines 78-94): `stored` is the checkpoint file's contents
when the file exists. A stored state is retained only when all three
identity fields equal the current invocation's; otherwise (or with no
file) a fresh state with an empty `steps_completed` is returned. -/
def _load_state (stored : Option PipeState) (now industry location : String)
    (max_leads : Int) : PipeState :=
  match stored with
  | some s =>
      if s.industry = industry ∧ s.location = location ∧ s.max_leads = max_leads
      then s
      else freshState now industry location max_leads
  | none => freshState now industry location max_leads

/-- `_is_step_done(state, step_name)` (run_pipeline.py lines 106-108). -/
def _is_step_done (state : PipeState) (step_name : String) : Bool :=
  state.steps_completed.contains step_name

/-- The command-line arguments of `main` that decide which stages are
active and whether to resume (run_pipeline.py lines 124-131). -/
structure Args where
  industry : String
  location : String
  max_leads : Int
  no_hubspot : Bool
  use_excel : Bool
  no_backup : Bool
  scrape_only : Bool
  resume : Bool

/-- The ordered stage list `main` runs for given options (run_pipeline.py
lines 180-263): scrape, then — unless scrape-only — qualify, enrich, score,
and the Excel/HubSpot tail selected by the flags. -/
def pipelineSteps (a : Args) : List String :=
  ["step1_scrape"] ++
    if a.scrape_only then [] else
      ["step2_qualify", "step3_enrich", "step3c_score"] ++
        if a.use_excel then
          ["step4_excel"] ++ (if !a.no_hubspot then ["step5_hubspot"] else [])
        else if !a.no_hubspot then
          ["step4_hubspot"] ++ (if !a.no_backup then ["step5_backup"] else [])
        else []

/-- The state `main` starts from (run_pipeline.py lines 164-178): under
`--resume` the checkpoint is loaded and identity-checked by `_load_state`;
otherwise a fresh state. -/
def initialState (a : Args) (stored : Option PipeState) (now : String) : PipeState :=
  if a.resume then _load_state stored now a.industry a.location a.max_leads
  else freshState now a.industry a.location a.max_leads

/-- Which stages `main` actually executes: each stage block runs unless
`args.resume and _is_step_done(state, STEP)` (run_pipeline.py lines
182-260; stage subprocesses assumed to succeed, as stage failure aborts or
skips checkpointing but not the skip test itself). -/
def executedSteps (a : Args) (state : PipeState) : List String :=
  (pipelineSteps a).filter fun s => !(a.resume && _is_step_done state s)

/-- C3 — resuming with a stored checkpoint: when the stored identity
(industry, location, max_leads) equals the invocation's, the stored state
is used, every stage in its `steps_completed` is skipped, and exactly the
remaining stages execute; when any identity field differs, a fresh state
with an empty completed list is used and every active stage executes from
scratch. -/
theorem c3_resume_identity_check (a : Args) (stored : PipeState) (now : String)
    (hres : a.resume = true) :
    ((stored.industry = a.industry ∧ stored.location = a.location ∧
        stored.max_leads = a.max_leads) →
      initialState a (some stored) now = stored ∧
      executedSteps a (initialState a (some stored) now) =
        (pipelineSteps a).filter (fun s => !stored.steps_completed.contains s)) ∧
    ((stored.industry ≠ a.industry ∨ stored.location ≠ a.location ∨
        stored.max_leads ≠ a.max_leads) →
      initialState a (some stored) now =
        freshState now a.industry a.location a.max_leads ∧
      executedSteps a (initialState a (some stored) now) = pipelineSteps a) := by
  constructor
  · intro hid
    have hload : initialState a (some stored) now = stored := by
      simp [initialState, hres, _load_state, hid.1, hid.2.1, hid.2.2]
    refine ⟨hload, ?_⟩
    rw [hload]
    simp [executedSteps, _is_step_done, hres]
  · intro hid
    have hnot : ¬(stored.industry = a.industry ∧ stored.location = a.location ∧
        stored.max_leads = a.max_leads) := by tauto
    have hload : initialState a (some stored) now =
        freshState now a.industry a.location a.max_leads := by
      simp [initialState, hres, _load_state, hnot]
    refine ⟨hload, ?_⟩
    rw [hload]
    simp [executedSteps, _is_step_done, freshState]

/-- C3 witness — resuming after steps 1-2 with a matching identity executes
exactly steps 3, 3c, 4, 5; the non-matching part is exercised with a
different location, which re-executes everything. -/
theorem c3_resume_identity_check_witness :
    executedSteps ⟨"Cuisinistes", "Bordeaux", 50, false, false, false, false, true⟩
        (initialState ⟨"Cuisinistes", "Bordeaux", 50, false, false, false, false, true⟩
          (some ⟨"r1", "Cuisinistes", "Bordeaux", 50,
            ["step1_scrape", "step2_qualify"]⟩) "now2") =
      (pipelineSteps ⟨"Cuisinistes", "Bordeaux", 50, false, false, false, false, true⟩).filter
        (fun s => !(["step1_scrape", "step2_qualify"] : List String).contains s) ∧
    executedSteps ⟨"Cuisinistes", "Lyon", 50, false, false, false, false, true⟩
        (initialState ⟨"Cuisinistes", "Lyon", 50, false, false, false, false, true⟩
          (some ⟨"r1", "Cuisinistes", "Bordeaux", 50,
            ["step1_scrape", "step2_qualify"]⟩) "now2") =
      pipelineSteps ⟨"Cuisinistes", "Lyon", 50, false, false, false, false, true⟩ :=
  ⟨((c3_resume_identity_check
      ⟨"Cuisinistes", "Bordeaux", 50, false, false, false, false, true⟩
      ⟨"r1", "Cuisinistes", "Bordeaux", 50, ["step1_scrape", "step2_qualify"]⟩
      "now2" rfl).1 (by exact ⟨rfl, rfl, rfl⟩)).2,
   ((c3_resume_identity_check
      ⟨"Cuisinistes", "Lyon", 50, false, false, false, false, true⟩
      ⟨"r1", "Cuisinistes", "Bordeaux", 50, ["step1_scrape", "step2_qualify"]⟩
      "now2" rfl).2 (Or.inr (Or.inl (by decide)))).2⟩

/-! ### The diagnostic report (`APITracker.generate_report`, api_utils.py lines 194-337) -/

/-- The fields of an `API_LIMITS` table row that `generate_report` reads
(api_utils.py lines 31-140); every field is optional because
`limits.get(...)` tolerates absence. -/
structure Limits where
  monthly_quota : Option Nat
  cost_per_unit : Option String
  wait_recommendation : Option String
  ideal_batch : Option Nat
  upgrade_price : Option String
  upgrade_url : Option String
  critical_note : Option String
  note : Option String
  deriving Repr, DecidableEq

/-- The `API_LIMITS["HubSpot contact-search"]` row, copied for the SDK-based
HubSpot tools (api_utils.py lines 129-146). -/
def hubspotLimits : Limits :=
  { monthly_quota := none
    cost_per_unit := some "requete API"
    wait_recommendation := some "0.5s entre leads suffit (search = 5 req/s max)"
    ideal_batch := some 50
    upgrade_price := some "Free tier OK pour < 100 leads. Pro = 650 000 req/jour"
    upgrade_url := some "https://hubspot.com/pricing"
    critical_note := none
    note := none }

/-- `API_LIMITS` (api_utils.py lines 31-146): the static provider-limits
table; `none` for a label not in the table (`API_LIMITS.get(label, {})`). -/
def API_LIMITS : String → Option Limits
  | "Serper Maps" => some
      { monthly_quota := some 2500
        cost_per_unit := some "search"
        wait_recommendation := some "Aucune attente necessaire (100 req/s)"
        ideal_batch := some 50
        upgrade_price := some "$50/mois pour 50 000 recherches"
        upgrade_url := some "https://serper.dev/pricing"
        critical_note := none
        note := none }
  | "Serper OSINT" => some
      { monthly_quota := some 2500
        cost_per_unit := some "search"
        wait_recommendation := some "Aucune attente necessaire"
        ideal_batch := some 50
        upgrade_price := some "$50/mois pour 50 000 recherches (partage avec Maps)"
        upgrade_url := some "https://serper.dev/pricing"
        critical_note := none
        note := none }
  | "Firecrawl scrape" => some
      { monthly_quota := some 500
        cost_per_unit := some "page scrapee"
        wait_recommendation := some "12s entre chaque appel (5 req/min free tier)"
        ideal_batch := some 30
        upgrade_price := some "$16/mois pour 3 000 credits"
        upgrade_url := some "https://firecrawl.dev/pricing"
        critical_note := none
        note := none }
  | "Anthropic classify" => some
      { monthly_quota := none
        cost_per_unit := some "appel LLM (~300 tokens output)"
        wait_recommendation := some "1s entre appels suffit"
        ideal_batch := some 50
        upgrade_price := some "Pay-as-you-go : ~$0.001/appel avec Haiku"
        upgrade_url := some "https://console.anthropic.com/settings/plans"
        critical_note := none
        note := none }
  | "Anthropic score" => some
      { monthly_quota := none
        cost_per_unit := some "appel LLM (~250 tokens output)"
        wait_recommendation := some "0.5s entre appels suffit"
        ideal_batch := some 50
        upgrade_price := some "Pay-as-you-go : ~$0.001/appel avec Haiku"
        upgrade_url := some "https://console.anthropic.com/settings/plans"
        critical_note := none
        note := none }
  | "Dropcontact batch" => some
      { monthly_quota := some 1000
        cost_per_unit := some "contact enrichi"
        wait_recommendation := some "Polling async : 5s entre chaque poll, max 60s total"
        ideal_batch := some 25
        upgrade_price := some "24EUR/mois pour 1 000 credits (1 credit = 1 email trouve)"
        upgrade_url := some "https://dropcontact.com/pricing"
        critical_note := none
        note := some "L'API n'est pas accessible sur le plan gratuit. Budget obligatoire." }
  | "Hunter domain-search" => some
      { monthly_quota := some 25
        cost_per_unit := some "recherche domaine"
        wait_recommendation := some "Pas de souci de rate, mais 25 credits/mois = max 25 leads"
        ideal_batch := some 20
        upgrade_price := some "$49/mois pour 500 recherches"
        upgrade_url := some "https://hunter.io/pricing"
        critical_note := some "25 credits/mois GRATUIT = limite la plus contraignante du pipeline"
        note := none }
  | "Apollo people-search" => some
      { monthly_quota := some 10000
        cost_per_unit := some "recherche contact"
        wait_recommendation := some "1.5s entre appels suffit"
        ideal_batch := some 50
        upgrade_price := some "$49/mois pour 5 000 credits mobiles + illimite email"
        upgrade_url := some "https://apollo.io/pricing"
        critical_note := none
        note := some "10 000 credits/mois avec email pro, 100 sans" }
  | "MillionVerifier" => some
      { monthly_quota := some 100
        cost_per_unit := some "email verifie"
        wait_recommendation := some "Aucune attente necessaire (160 req/s)"
        ideal_batch := some 50
        upgrade_price := some "$15/mois pour les premiers credits (pay-as-you-go)"
        upgrade_url := some "https://millionverifier.com/pricing"
        critical_note := none
        note := some "100 verifications gratuites/mois. Catch-all non factures." }
  | "HubSpot contact-search" => some hubspotLimits
  | "HubSpot company-search" => some hubspotLimits
  | "HubSpot company-create" => some hubspotLimits
  | "HubSpot contact-create" => some hubspotLimits
  | "HubSpot contact-update" => some hubspotLimits
  | "HubSpot contact-company association" => some hubspotLimits
  | _ => none

/-- Python truthiness of an optional integer field (`if limits.get(...)`):
`None` and `0` are falsy. -/
def truthyNat (o : Option Nat) : Option Nat :=
  o.bind fun n => if n = 0 then none else some n

/-- Python truthiness of an optional string field: `None` and `""` are
falsy. -/
def truthyStr (o : Option String) : Option String :=
  o.bind fun s => if s = "" then none else some s

/-- `c * n` as in Python string repetition (`"=" * 70`). -/
def repeatChar (c : Char) (n : Nat) : String :=
  String.mk (List.replicate n c)

/-- Python `s.ljust(w)` (spaces appended up to width `w`). -/
def ljust (s : String) (w : Nat) : String :=
  s ++ repeatChar ' ' (w - s.length)

/-- Python `f"{x:>w}"` (spaces prepended up to width `w`). -/
def rjust (s : String) (w : Nat) : String :=
  repeatChar ' ' (w - s.length) ++ s

/-- Insertion into a label-sorted row list (for `sorted(self.calls.items())`;
labels are unique, so comparing labels alone matches Python's tuple
comparison). -/
def insertByLabel (p : String × Entry) : List (String × Entry) → List (String × Entry)
  | [] => [p]
  | q :: qs => if p.1 ≤ q.1 then p :: q :: qs else q :: insertByLabel p qs

/-- `sorted(self.calls.items())` (api_utils.py line 211). -/
def sortByLabel : List (String × Entry) → List (String × Entry)
  | [] => []
  | p :: ps => insertByLabel p (sortByLabel ps)

/-- One row of the status table (api_utils.py lines 211-227). -/
def tableLine (label : String) (e : Entry) : String :=
  let err := e.server_errors + e.network_errors + e.client_errors
  let status_icon :=
    if e.rate_limited > 0 then "!! RATE LIMIT"
    else if err > 0 then "!  ERREURS"
    else "OK"
  let name := ljust (label.take 28) 28
  "  " ++ name ++ "| " ++ rjust (toString e.total) 5 ++ "  | " ++
    rjust (toString e.success) 3 ++ " | " ++ rjust (toString e.rate_limited) 3 ++
    " | " ++ rjust (toString err) 3 ++ " | " ++ status_icon

/-- The per-tool remediation block for a tool with issues (api_utils.py
lines 244-276). The entry is the same dict `self.calls[label]` the loop
re-reads. -/
def issueBlock (label : String) (e : Entry) : List String :=
  let limits := API_LIMITS label
  ["  [" ++ label ++ "]"] ++
  (if e.rate_limited > 0 then
      ["    Rate limit (429) atteint " ++ toString e.rate_limited ++ " fois"] ++
      (match truthyStr e.first_429_at with
        | some t => ["    Premier 429 a : " ++ t]
        | none => [])
    else []) ++
  (if e.server_errors > 0 then
      ["    Erreurs serveur (5xx) : " ++ toString e.server_errors]
    else []) ++
  (if e.network_errors > 0 then
      ["    Erreurs reseau : " ++ toString e.network_errors]
    else []) ++
  ["", "    RECOMMANDATIONS :"] ++
  (match truthyStr (limits.bind Limits.wait_recommendation) with
    | some w => ["    - Delai : " ++ w]
    | none => []) ++
  (match truthyNat (limits.bind Limits.ideal_batch) with
    | some b => ["    - Batch ideal : " ++ toString b ++ " leads par recherche"]
    | none => []) ++
  (match truthyNat (limits.bind Limits.monthly_quota) with
    | some q => ["    - Quota mensuel (free) : " ++ toString q ++ " " ++
        ((limits.bind Limits.cost_per_unit).getD "credits")]
    | none => []) ++
  (match truthyStr (limits.bind Limits.upgrade_price) with
    | some u => ["    - Upgrade : " ++ u]
    | none => []) ++
  (match truthyStr (limits.bind Limits.upgrade_url) with
    | some u => ["    - URL : " ++ u]
    | none => []) ++
  (match truthyStr (limits.bind Limits.critical_note) with
    | some c => ["    - ATTENTION : " ++ c]
    | none => []) ++
  (match truthyStr (limits.bind Limits.note) with
    | some nt => ["    - Note : " ++ nt]
    | none => []) ++
  [""]

/-- The near-quota call-out for one (label, used, quota) triple
(api_utils.py lines 283-290). `int(used / quota * 100)` is modelled as
exact natural division `used * 100 / quota` (the Python expression computes
the same percentage via float arithmetic). -/
def nearLimitBlock (label : String) (used quota : Nat) : List String :=
  let limits := API_LIMITS label
  let pct := used * 100 / quota
  ["  [" ++ label ++ "] " ++ toString used ++ "/" ++ toString quota ++
    " credits utilises (" ++ toString pct ++ "%)"] ++
  (match truthyStr (limits.bind Limits.upgrade_price) with
    | some u => ["    Upgrade : " ++ u]
    | none => []) ++
  (match truthyStr (limits.bind Limits.upgrade_url) with
    | some u => ["    URL : " ++ u]
    | none => [])

/-- The tracker object: its only state is the `calls` dict. -/
structure APITracker where
  calls : List (String × Entry)
  deriving Repr, DecidableEq

/-- `APITracker.generate_report(num_leads)` (api_utils.py lines 194-337):
header, sorted status table, remediation blocks for tools with rate limits
or errors, near-quota call-outs (≥ 70% of the monthly quota consumed,
modelled as `10·success ≥ 7·quota`), the most-constraining-tool
recommendation (scanning `self.calls` in insertion order for the smallest
truthy monthly quota), the batch-size advice keyed on `num_leads > 30`,
and the fixed wait-time advice. -/
def APITracker.generate_report (t : APITracker) (num_leads : Int) : String :=
  let sorted := sortByLabel t.calls
  let tools_with_issues := sorted.filter fun p =>
    p.2.rate_limited > 0 ∨
      p.2.server_errors + p.2.network_errors + p.2.client_errors > 0
  let tools_near_limit := sorted.filterMap fun p =>
    match truthyNat ((API_LIMITS p.1).bind Limits.monthly_quota) with
    | some q => if 10 * p.2.success ≥ 7 * q then some (p.1, p.2.success, q) else none
    | none => none
  let constraining := t.calls.foldl
    (fun acc p =>
      match truthyNat ((API_LIMITS p.1).bind Limits.monthly_quota) with
      | some q =>
          match acc with
          | none => some (p.1, q)
          | some mq => if q < mq.2 then some (p.1, q) else acc
      | none => acc)
    none
  let lines : List String :=
    ["", repeatChar '=' 70,
     "  RAPPORT DIAGNOSTIC API — Pipeline Lead Generation",
     repeatChar '=' 70,
     "  Leads traites: " ++ toString num_leads,
     "",
     "  OUTIL                      | Appels | OK  | 429 | Err | Statut",
     "  " ++ repeatChar '-' 66] ++
    (sorted.map fun p => tableLine p.1 p.2) ++
    [""] ++
    (if tools_with_issues ≠ [] then
        ["  " ++ repeatChar '!' 70, "  OUTILS AVEC PROBLEMES :",
         "  " ++ repeatChar '!' 70, ""] ++
        (tools_with_issues.flatMap fun p => issueBlock p.1 p.2)
      else []) ++
    (if tools_near_limit ≠ [] then
        ["  " ++ repeatChar '-' 70,
         "  ATTENTION — QUOTAS PROCHES DE LA LIMITE :", ""] ++
        (tools_near_limit.flatMap fun q => nearLimitBlock q.1 q.2.1 q.2.2) ++
        [""]
      else []) ++
    ["  " ++ repeatChar '=' 70, "  RECOMMANDATIONS GENERALES :",
     "  " ++ repeatChar '=' 70, ""] ++
    (match constraining with
      | some ct =>
          ["  Outil le plus contraignant : " ++ ct.1,
           "    Quota mensuel : " ++ toString ct.2 ++ " " ++
             (((API_LIMITS ct.1).bind Limits.cost_per_unit).getD "credits")] ++
          (if num_leads > 0 then
              let remaining := ct.2 - (getEntry t.calls ct.1).success
              ["    Credits restants (estimation) : ~" ++ toString remaining,
               "    Recherches possibles ce mois : ~" ++ toString remaining ++ " leads"]
            else []) ++
          [""]
      | none => []) ++
    (if num_leads > 30 then
        ["  Pour " ++ toString num_leads ++ " leads, envisagez de :",
         "    - Hunter.io : Passer au plan Starter ($49/mois, 500 recherches)",
         "    - Firecrawl : Passer au plan Hobby ($16/mois, 3 000 scrapes)",
         "    - MillionVerifier : Acheter un pack credits ($15 pour les premiers)"]
      else
        ["  Pour " ++ toString num_leads ++ " leads, le free tier suffit pour la plupart des outils.",
         "  Seul Hunter.io (25 credits/mois gratuit) peut etre limitant."]) ++
    ["",
     "  Temps d'attente avant de relancer une recherche :",
     "    - Si aucun 429 : relancer immediatement",
     "    - Si 429 sur 1 outil : attendre 5-10 minutes",
     "    - Si 429 sur plusieurs outils : attendre 30-60 minutes",
     "    - Si quotas mensuels epuises : attendre le mois prochain ou upgrader",
     "",
     repeatChar '=' 70]
  String.intercalate "\n" lines

/-- C9 — `generate_report` is a pure function of the tracker's `calls`
state and `num_leads`: two trackers with equal calls dicts produce
character-identical report text for the same `num_leads`. The embedding
takes no clock, environment or randomness input — the Python body reads
only `self.calls`, the static `API_LIMITS` table and `num_leads`. -/
theorem c9_report_deterministic (t1 t2 : APITracker) (num_leads : Int)
    (h : t1.calls = t2.calls) :
    t1.generate_report num_leads = t2.generate_report num_leads := by
  cases t1
  cases t2
  simp only [APITracker.mk.injEq] at h ⊢
  subst h
  rfl

/-- C9 witness — a tracker built by `record` and a tracker written as a
literal have equal calls dicts, so their reports coincide. -/
theorem c9_report_deterministic_witness :
    APITracker.generate_report ⟨record [] "Serper OSINT" 200 "t0"⟩ 10 =
      APITracker.generate_report
        ⟨[("Serper OSINT", ⟨1, 1, 0, 0, 0, 0, none, none⟩)]⟩ 10 :=
  c9_report_deterministic ⟨record [] "Serper OSINT" 200 "t0"⟩
    ⟨[("Serper OSINT", ⟨1, 1, 0, 0, 0, 0, none, none⟩)]⟩ 10 (by decide)

end AgentsIA
